import Mathlib

/-!
Verification of the DynamoDB global-secondary-index (GSI) lifecycle controller
of the `terraform-provider-gsi` repository, shallowly embedded from
`provider/global_secondary_index.go` (the file also containing
`validateBillingMode`, `getAttributeType`, `idToNames`, the four CRUD
callbacks and the two wait configurations) and `provider/provider.go`.

Machine integers (`int`, `int64`) are modelled as `Int`; none of the verified
code can overflow them.  Remote calls are modelled by passing the remote
responses in explicitly and recording the issued calls in an event trace.
-/

deriving instance DecidableEq for Except

namespace GSI

/-- One entry of a table attribute-definition list
(`dynamodb.AttributeDefinition`): an attribute name together with its scalar
type (`"S"`, `"N"`, `"B"` in real DynamoDB data). -/
structure AttributeDefinition where
  attributeName : String
  attributeType : String
deriving DecidableEq, Repr

/-- Embedding of `getAttributeType`: scan the attribute-definition list and
return the type of the first definition whose name matches, or `""` when no
definition matches. -/
def getAttributeType : List AttributeDefinition → String → String
  | [], _ => ""
  | attr :: rest, n =>
    if attr.attributeName = n then attr.attributeType else getAttributeType rest n

/-- Embedding of the attribute-reconciliation step inlined twice in
`dynamoDBGSICreate` (once for the hash key, once for the range key): look up
the requested name; on `""` (treated by the code as "not defined") append a
new definition, on a differing type report a conflict (`none`), otherwise
leave the list unchanged. -/
def reconcileAttribute (ad : List AttributeDefinition) (n t : String) :
    Option (List AttributeDefinition) :=
  let rT := getAttributeType ad n
  if rT = "" then some (ad ++ [⟨n, t⟩])
  else if rT ≠ t then none
  else some ad

/-- The string constant `dynamodb.BillingModePayPerRequest`. -/
def billingModePayPerRequest : String := "PAY_PER_REQUEST"

/-- The string constant `dynamodb.BillingModeProvisioned`. -/
def billingModeProvisioned : String := "PROVISIONED"

/-- The billing-relevant fields `validateBillingMode` reads from the resource
data: `billing_mode`, `read_capacity`, `write_capacity`,
`autoscaling_enabled`. -/
structure BillingFields where
  billingMode : String
  readCapacity : Int
  writeCapacity : Int
  autoscalingEnabled : Bool
deriving DecidableEq, Repr

/-- Embedding of `validateBillingMode`: `some msg` is the returned error,
`none` is success.  The `switch` on `billing_mode` has exactly the two cases
of the source and no default branch. -/
def validateBillingMode (b : BillingFields) : Option String :=
  if b.billingMode = billingModePayPerRequest then
    if b.readCapacity ≠ 0 ∨ b.writeCapacity ≠ 0 then
      some "read_capacity / write_capacity must not be set for billing_mode = PAY_PER_REQUEST"
    else if b.autoscalingEnabled then
      some "autoscaling cannot be enabled with billing_mode = PAY_PER_REQUEST"
    else none
  else if b.billingMode = billingModeProvisioned then
    if b.readCapacity = 0 ∨ b.writeCapacity = 0 then
      some "read_capacity / write_capacity must be set to a value >= 1 for billing_mode = PROVISIONED"
    else none
  else none

/-- Go `time.Minute` in nanoseconds (`time.Duration` counts nanoseconds). -/
def timeMinute : Nat := 60 * 1000000000

/-- The constant `createGSITimeout = 30 * time.Minute`. -/
def createGSITimeout : Nat := 30 * timeMinute

/-- The constant `updateGSITimeout = 20 * time.Minute` (declared in the
constant block; not referenced by any wait configuration). -/
def updateGSITimeout : Nat := 20 * timeMinute

/-- The constant `deleteGSITimeout = 10 * time.Minute`. -/
def deleteGSITimeout : Nat := 10 * timeMinute

/-- The string constant `dynamodb.IndexStatusCreating`. -/
def indexStatusCreating : String := "CREATING"

/-- The string constant `dynamodb.IndexStatusUpdating`. -/
def indexStatusUpdating : String := "UPDATING"

/-- The string constant `dynamodb.IndexStatusActive`. -/
def indexStatusActive : String := "ACTIVE"

/-- The string constant `dynamodb.IndexStatusDeleting`. -/
def indexStatusDeleting : String := "DELETING"

/-- The data of a `resource.StateChangeConf` relevant to the claims: the
pending set, the target set and the timeout (in nanoseconds). -/
structure StateChangeConf where
  pending : List String
  target : List String
  timeout : Nat
deriving DecidableEq, Repr

/-- The `StateChangeConf` built by `waitDynamoDBGSIActive` (used by both the
create and the update path): pending `{UPDATING}`, target
`{CREATING, ACTIVE}`, timeout `createGSITimeout`. -/
def waitDynamoDBGSIActiveConf : StateChangeConf :=
  { pending := [indexStatusUpdating]
    target := [indexStatusCreating, indexStatusActive]
    timeout := createGSITimeout }

/-- The `StateChangeConf` built by `waitDynamoDBGSIDeleted`: pending
`{DELETING, ACTIVE}`, empty target (absence is success), timeout
`deleteGSITimeout`. -/
def waitDynamoDBGSIDeletedConf : StateChangeConf :=
  { pending := [indexStatusDeleting, indexStatusActive]
    target := []
    timeout := deleteGSITimeout }

/-- Split a character list at the first `':'`: `none` when no `':'` occurs,
otherwise the part before and the part after the first `':'`.  This is
`strings.SplitN(s, ":", 2)` restricted to its two outcomes. -/
def splitFirstColon : List Char → Option (List Char × List Char)
  | [] => none
  | c :: rest =>
    if c = ':' then some ([], rest)
    else
      match splitFirstColon rest with
      | none => none
      | some (a, b) => some (c :: a, b)

/-- Embedding of `idToNames`: split the composite id at the first `':'` into
`(table_name, index_name)`; an id without `':'` yields the invalid-ID
error. -/
def idToNames (id : String) : Except String (String × String) :=
  match splitFirstColon id.data with
  | none => .error ("Invalid DynamoDB GSI ID (" ++ id ++ ")")
  | some (a, b) => .ok (⟨a⟩, ⟨b⟩)

/-- Whether `idToNames` rejects the given id. -/
def idParseFails (id : String) : Bool :=
  match idToNames id with
  | .error _ => true
  | .ok _ => false

example : idToNames "t:i" = .ok ("t", "i") := rfl
example : idToNames "t:a:b" = .ok ("t", "a:b") := rfl
example : idParseFails "noColon" = true := by decide
example : reconcileAttribute [⟨"a", "S"⟩] "a" "N" = none := by decide
example : reconcileAttribute [] "a" "S" = some [⟨"a", "S"⟩] := by decide
example : validateBillingMode ⟨"PAY_PER_REQUEST", 5, 0, false⟩ ≠ none := by decide
example : validateBillingMode ⟨"FOO", 0, 0, true⟩ = none := by decide

/-- The `dynamodb.ProvisionedThroughput` carried by an index-update action;
both unit fields are pointers in the source and start out unset (`nil`),
hence `Option`. -/
structure ProvisionedThroughput where
  readCapacityUnits : Option Int
  writeCapacityUnits : Option Int
deriving DecidableEq, Repr

/-- The `dynamodb.CreateGlobalSecondaryIndexAction` assembled by
`dynamoDBGSICreate`: index name, key schema as (attribute name, key type)
pairs, projection, and (only for `PROVISIONED` billing) the initial
throughput. -/
structure CreateGSIAction where
  indexName : String
  keySchema : List (String × String)
  projectionType : String
  nonKeyAttributes : List String
  provisionedThroughput : Option (Int × Int)
deriving DecidableEq, Repr

/-- A remote call against the table store, as issued through the DynamoDB
client: a `DescribeTable`, or an `UpdateTable` carrying a create, capacity
update, or delete action for one index. -/
inductive RemoteCall where
  | describeTable (tableName : String)
  | updateTableCreate (tableName : String) (ad : List AttributeDefinition)
      (action : CreateGSIAction)
  | updateTableUpdate (tableName : String) (indexName : String)
      (throughput : ProvisionedThroughput)
  | updateTableDelete (tableName : String) (indexName : String)
deriving DecidableEq, Repr

/-- One observable step of a lifecycle operation: a remote call or a blocking
`WaitForState` with the given configuration. -/
inductive Event where
  | call (c : RemoteCall)
  | wait (conf : StateChangeConf)
deriving DecidableEq, Repr

/-- Whether the event is a `DescribeTable` call. -/
def Event.isDescribe : Event → Bool
  | .call (.describeTable _) => true
  | _ => false

/-- Whether the event is an `UpdateTable` call carrying a create action. -/
def Event.isCreateCall : Event → Bool
  | .call (.updateTableCreate _ _ _) => true
  | _ => false

/-- Whether the event is an `UpdateTable` call carrying a capacity-update
action. -/
def Event.isUpdateCall : Event → Bool
  | .call (.updateTableUpdate _ _ _) => true
  | _ => false

/-- The spec fields `dynamoDBGSICreate` reads from the resource data.
`rangeKey = some rk` models `GetOk("range_key")` returning a set, nonempty
value; `rangeKeyType = some rt` models `GetOkExists("range_key_type")`
reporting the field as present. -/
structure CreateData where
  tableName : String
  name : String
  hashKey : String
  hashKeyType : String
  rangeKey : Option String
  rangeKeyType : Option String
  projectionType : String
  nonKeyAttributes : List String
  billing : BillingFields
deriving DecidableEq, Repr

/-- The environment of one `dynamoDBGSICreate` invocation: the provider flags
and the responses the remote store gives to each call the operation can
issue, in source order (auto-import probe, attribute-definition describe,
create `UpdateTable`, wait, final read). -/
structure CreateEnv where
  isNewResource : Bool
  autoImport : Bool
  probe : Except String Bool
  describe : Except String (List AttributeDefinition)
  updateResp : Except String Unit
  waitResp : Except String Unit
  readResp : Except String Unit
deriving DecidableEq, Repr

/-- The distinct error construction sites of `dynamoDBGSICreate`, one
constructor per `return err`/`errors.New`/`fmt.Errorf` site. -/
inductive CreateError where
  | probeError (msg : String)
  | describeError (msg : String)
  | hashKeyConflict
  | missingRangeKeyType
  | rangeKeyConflict
  | validationError (msg : String)
  | createCallError (msg : String)
  | waitError (msg : String)
  | readError (msg : String)
deriving DecidableEq, Repr

/-- The outcome of one create invocation: the returned error (if any), the id
assigned via `SetId` (if any), and the trace of remote calls and waits. -/
structure CreateOutcome where
  res : Except CreateError Unit
  assignedId : Option String
  events : List Event
deriving DecidableEq, Repr

/-- Whether the create result is one of the two validation failures (a
billing/capacity rule violation or a range key without `range_key_type`). -/
def isValidationFailure : Except CreateError Unit → Bool
  | .error (.validationError _) => true
  | .error .missingRangeKeyType => true
  | _ => false

/-- Tail of `dynamoDBGSICreate` from `validateBillingMode` on: validate, build
the `UpdateTableInput` (with initial throughput exactly when `billing_mode`
is `PROVISIONED`), issue the create call, wait via
`waitDynamoDBGSIActive`, set the id and run the final read. -/
def createFinish (d : CreateData) (env : CreateEnv)
    (keySchema : List (String × String)) (ad : List AttributeDefinition)
    (ev : List Event) : CreateOutcome :=
  let tn := d.tableName
  let idxn := d.name
  match validateBillingMode d.billing with
  | some msg => ⟨.error (.validationError msg), none, ev⟩
  | none =>
    let pt : Option (Int × Int) :=
      if d.billing.billingMode = billingModeProvisioned then
        some (d.billing.readCapacity, d.billing.writeCapacity)
      else none
    let action : CreateGSIAction :=
      ⟨idxn, keySchema, d.projectionType, d.nonKeyAttributes, pt⟩
    let ev2 := ev ++ [.call (.updateTableCreate tn ad action)]
    match env.updateResp with
    | .error e => ⟨.error (.createCallError e), none, ev2⟩
    | .ok _ =>
      let ev3 := ev2 ++ [.wait waitDynamoDBGSIActiveConf]
      match env.waitResp with
      | .error e => ⟨.error (.waitError e), none, ev3⟩
      | .ok _ =>
        let ev4 := ev3 ++ [.call (.describeTable tn)]
        match env.readResp with
        | .error e => ⟨.error (.readError e), some (tn ++ ":" ++ idxn), ev4⟩
        | .ok _ => ⟨.ok (), some (tn ++ ":" ++ idxn), ev4⟩

/-- Middle of `dynamoDBGSICreate` after the auto-import probe: fetch the
attribute definitions (`getAttributeDefinition`, a `DescribeTable`),
reconcile the hash key and, when a range key is set, require
`range_key_type` and reconcile it, then continue with `createFinish`. -/
def createAfterProbe (d : CreateData) (env : CreateEnv) (ev0 : List Event) :
    CreateOutcome :=
  match env.describe with
  | .error e =>
    ⟨.error (.describeError e), none, ev0 ++ [.call (.describeTable d.tableName)]⟩
  | .ok ad0 =>
    match reconcileAttribute ad0 d.hashKey d.hashKeyType with
    | none =>
      ⟨.error .hashKeyConflict, none, ev0 ++ [.call (.describeTable d.tableName)]⟩
    | some ad1 =>
      match d.rangeKey with
      | none =>
        createFinish d env [(d.hashKey, "HASH")] ad1
          (ev0 ++ [.call (.describeTable d.tableName)])
      | some rk =>
        match d.rangeKeyType with
        | none =>
          ⟨.error .missingRangeKeyType, none,
            ev0 ++ [.call (.describeTable d.tableName)]⟩
        | some rt =>
          match reconcileAttribute ad1 rk rt with
          | none =>
            ⟨.error .rangeKeyConflict, none,
              ev0 ++ [.call (.describeTable d.tableName)]⟩
          | some ad2 =>
            createFinish d env [(d.hashKey, "HASH"), (rk, "RANGE")] ad2
              (ev0 ++ [.call (.describeTable d.tableName)])

/-- Embedding of `dynamoDBGSICreate`: when the resource is new and
auto-import is enabled, probe via `readGSI` (a `DescribeTable`) and, when
the index is found, set the id to `table:index` and return success without
any further call; otherwise continue with the create proper. -/
def dynamoDBGSICreate (d : CreateData) (env : CreateEnv) : CreateOutcome :=
  if env.isNewResource && env.autoImport then
    match env.probe with
    | .error e =>
      ⟨.error (.probeError e), none, [.call (.describeTable d.tableName)]⟩
    | .ok true =>
      ⟨.ok (), some (d.tableName ++ ":" ++ d.name),
        [.call (.describeTable d.tableName)]⟩
    | .ok false => createAfterProbe d env [.call (.describeTable d.tableName)]
  else createAfterProbe d env []

/-- The resource data of one `dynamoDBGSIUpdate` invocation: the composite
id, the new billing-relevant values, and the previously persisted capacity
values (`HasChange` compares the old against the new value of the named
field; for a key that is not a schema field it reports no change). -/
structure UpdateData where
  id : String
  billing : BillingFields
  readCapacityOld : Int
  writeCapacityOld : Int
deriving DecidableEq, Repr

/-- Embedding of `d.HasChange(key)` on the update resource data: true iff
`key` names one of the two capacity fields and its old and new values
differ; any other key (including a misspelled one) has no tracked change. -/
def hasChange (d : UpdateData) (key : String) : Bool :=
  if key = "read_capacity" then d.readCapacityOld ≠ d.billing.readCapacity
  else if key = "write_capacity" then d.writeCapacityOld ≠ d.billing.writeCapacity
  else false

/-- The remote responses available to one `dynamoDBGSIUpdate` invocation. -/
structure UpdateEnv where
  updateResp : Except String Unit
  waitResp : Except String Unit
  readResp : Except String Unit
deriving DecidableEq, Repr

/-- The distinct error construction sites of `dynamoDBGSIUpdate`. -/
inductive UpdateError where
  | invalidId (id : String)
  | validationError (msg : String)
  | updateCallError (msg : String)
  | waitError (msg : String)
  | readError (msg : String)
deriving DecidableEq, Repr

/-- The outcome of one update invocation: returned error (if any) and the
trace of remote calls and waits. -/
structure UpdateOutcome where
  res : Except UpdateError Unit
  events : List Event
deriving DecidableEq, Repr

/-- The final `dynamoDBGSIRead` performed by the update path: one
`DescribeTable` whose outcome is the operation result. -/
def updateFinishRead (env : UpdateEnv) (ev : List Event) (tn : String) :
    UpdateOutcome :=
  let ev2 := ev ++ [.call (.describeTable tn)]
  match env.readResp with
  | .error e => ⟨.error (.readError e), ev2⟩
  | .ok _ => ⟨.ok (), ev2⟩

/-- Embedding of `dynamoDBGSIUpdate`: parse the id, validate billing, and —
only when autoscaling is disabled and billing is `PROVISIONED` — build a
throughput update holding exactly the fields `HasChange` reports as
changed (the read side queries the key `"read_capaciity"`, exactly as the
source does), issue it when nonempty, wait via `waitDynamoDBGSIActive`,
and finish with a read. -/
def dynamoDBGSIUpdate (d : UpdateData) (env : UpdateEnv) : UpdateOutcome :=
  match idToNames d.id with
  | .error _ => ⟨.error (.invalidId d.id), []⟩
  | .ok (tn, idxn) =>
    match validateBillingMode d.billing with
    | some msg => ⟨.error (.validationError msg), []⟩
    | none =>
      if !d.billing.autoscalingEnabled && d.billing.billingMode = billingModeProvisioned then
        let changedR := hasChange d "read_capaciity"
        let pt1 : ProvisionedThroughput :=
          if changedR then ⟨some d.billing.readCapacity, none⟩ else ⟨none, none⟩
        let changedW := hasChange d "write_capacity"
        let pt2 : ProvisionedThroughput :=
          if changedW then { pt1 with writeCapacityUnits := some d.billing.writeCapacity } else pt1
        if changedR || changedW then
          let ev1 := [Event.call (.updateTableUpdate tn idxn pt2)]
          match env.updateResp with
          | .error e => ⟨.error (.updateCallError e), ev1⟩
          | .ok _ =>
            let ev2 := ev1 ++ [.wait waitDynamoDBGSIActiveConf]
            match env.waitResp with
            | .error e => ⟨.error (.waitError e), ev2⟩
            | .ok _ => updateFinishRead env ev2 tn
        else updateFinishRead env [] tn
      else updateFinishRead env [] tn

/-- The possible outcomes of the delete `UpdateTable` call, as classified by
`dynamoDBGSIDelete`: success, a `ResourceNotFoundException`, or any other
error. -/
inductive DeleteResp where
  | ok
  | notFound
  | otherError (msg : String)
deriving DecidableEq, Repr

/-- The distinct error construction sites of `dynamoDBGSIDelete`. -/
inductive DeleteError where
  | invalidId (id : String)
  | doesNotExist (tableName : String) (indexName : String)
  | deleteFailed (indexName : String)
  | waitError (msg : String)
deriving DecidableEq, Repr

/-- The outcome of one delete invocation. -/
structure DeleteOutcome where
  res : Except DeleteError Unit
  events : List Event
deriving DecidableEq, Repr

/-- Embedding of `dynamoDBGSIDelete`: parse the id, issue the delete
`UpdateTable`; a `ResourceNotFoundException` yields the
table-or-index-does-not-exist error, any other failure the generic delete
failure; on success wait via `waitDynamoDBGSIDeleted`. -/
def dynamoDBGSIDelete (id : String) (resp : DeleteResp)
    (waitResp : Except String Unit) : DeleteOutcome :=
  match idToNames id with
  | .error _ => ⟨.error (.invalidId id), []⟩
  | .ok (tn, idxn) =>
    let ev1 := [Event.call (.updateTableDelete tn idxn)]
    match resp with
    | .notFound => ⟨.error (.doesNotExist tn idxn), ev1⟩
    | .otherError _ => ⟨.error (.deleteFailed idxn), ev1⟩
    | .ok =>
      let ev2 := ev1 ++ [.wait waitDynamoDBGSIDeletedConf]
      match waitResp with
      | .error e => ⟨.error (.waitError e), ev2⟩
      | .ok _ => ⟨.ok (), ev2⟩

/-! ## Lemmas about the id parser -/

theorem splitFirstColon_append (l r : List Char) (h : ':' ∉ l) :
    splitFirstColon (l ++ ':' :: r) = some (l, r) := by
  induction l with
  | nil => simp [splitFirstColon]
  | cons c cs ih =>
    have hc : ¬(c = ':') := by
      rintro rfl
      exact h (List.mem_cons_self _ _)
    have hcs : ':' ∉ cs := fun m => h (List.mem_cons_of_mem _ m)
    simp [splitFirstColon, hc, ih hcs]

theorem splitFirstColon_eq_none (l : List Char) :
    splitFirstColon l = none ↔ ':' ∉ l := by
  induction l with
  | nil => simp [splitFirstColon]
  | cons c cs ih =>
    by_cases hc : c = ':'
    · subst hc
      simp [splitFirstColon]
    · cases h : splitFirstColon cs with
      | none =>
        have := ih.mp h
        simp [splitFirstColon, hc, h, this]
        exact fun e => hc e.symm
      | some p =>
        have hmem : ':' ∈ cs := by
          by_contra hm
          rw [ih.mpr hm] at h
          cases h
        simp [splitFirstColon, hc, h, hmem]

example :
    (dynamoDBGSIDelete "t:i" .notFound (.ok ())).res =
      .error (.doesNotExist "t" "i") := rfl
example :
    (dynamoDBGSIUpdate ⟨"t:i", ⟨"PROVISIONED", 10, 5, false⟩, 5, 5⟩
      ⟨.ok (), .ok (), .ok ()⟩).events = [.call (.describeTable "t")] := rfl
example :
    (dynamoDBGSIUpdate ⟨"t:i", ⟨"PROVISIONED", 5, 10, false⟩, 5, 5⟩
      ⟨.ok (), .ok (), .ok ()⟩).events =
      [.call (.updateTableUpdate "t" "i" ⟨none, some 10⟩),
       .wait waitDynamoDBGSIActiveConf, .call (.describeTable "t")] := rfl

/-! ## Claim theorems -/

/-- C9: the composite identity round-trips: for every table name without
`':'` and every index name, `idToNames` applied to the id built exactly as
`dynamoDBGSICreate` builds it (the two names joined by `":"`) recovers the
pair, splitting at the first `':'` only; and parsing fails iff the id
contains no `':'` at all. -/
theorem idToNames_roundtrip_and_failure :
    (∀ tn idxn : String, ':' ∉ tn.data →
        idToNames (tn ++ ":" ++ idxn) = .ok (tn, idxn)) ∧
    (∀ id : String, idParseFails id = true ↔ ':' ∉ id.data) := by
  constructor
  · intro tn idxn h
    unfold idToNames
    have hd : (tn ++ ":" ++ idxn).data = tn.data ++ ':' :: idxn.data := by
      simp [String.data_append]
    rw [hd, splitFirstColon_append _ _ h]
  · intro id
    unfold idParseFails idToNames
    cases h : splitFirstColon id.data with
    | none => simp [(splitFirstColon_eq_none _).mp h]
    | some p =>
      have hmem : ':' ∈ id.data := by
        by_contra hm
        rw [(splitFirstColon_eq_none _).mpr hm] at h
        cases h
      simp [hmem]

/-- Witness for C9 at concrete inputs: an index name may itself contain
`':'`, and an id without `':'` is rejected. -/
theorem idToNames_roundtrip_and_failure_witness :
    idToNames ("table" ++ ":" ++ "a:b") = .ok ("table", "a:b") ∧
    (idParseFails "noColonHere" = true ↔ ':' ∉ "noColonHere".data) :=
  ⟨idToNames_roundtrip_and_failure.1 "table" "a:b" (by decide),
   idToNames_roundtrip_and_failure.2 "noColonHere"⟩

/-- C3: `validateBillingMode` fails exactly when the billing mode is
`PAY_PER_REQUEST` and a capacity is nonzero or autoscaling is enabled, or
the billing mode is `PROVISIONED` and a capacity is zero; every other input
passes.  The embedding is a pure function, matching the side-effect-free
source. -/
theorem validateBillingMode_fails_iff (b : BillingFields) :
    (validateBillingMode b).isSome = true ↔
      ((b.billingMode = billingModePayPerRequest ∧
          (b.readCapacity ≠ 0 ∨ b.writeCapacity ≠ 0 ∨ b.autoscalingEnabled = true)) ∨
       (b.billingMode = billingModeProvisioned ∧
          (b.readCapacity = 0 ∨ b.writeCapacity = 0))) := by
  unfold validateBillingMode
  split_ifs with h1 h2 h3 h4 <;>
    simp_all [billingModePayPerRequest, billingModeProvisioned]
  tauto

/-- C10: a billing-mode string that is neither `PROVISIONED` nor
`PAY_PER_REQUEST` passes `validateBillingMode` regardless of the capacity
values and the autoscaling flag (the `switch` has no default branch). -/
theorem validateBillingMode_unknown_mode_passes (b : BillingFields)
    (h1 : b.billingMode ≠ billingModePayPerRequest)
    (h2 : b.billingMode ≠ billingModeProvisioned) :
    validateBillingMode b = none := by
  unfold validateBillingMode
  simp [h1, h2]

/-- Witness for C10: mode `"FOO"` with nonzero read capacity and autoscaling
enabled still passes. -/
theorem validateBillingMode_unknown_mode_passes_witness :
    validateBillingMode ⟨"FOO", 7, 0, true⟩ = none :=
  validateBillingMode_unknown_mode_passes ⟨"FOO", 7, 0, true⟩ (by decide) (by decide)

/-- C1 counterexample: a Delete whose remote delete call reports not-found
returns the table-or-index-does-not-exist error, not success. -/
theorem delete_notFound_is_error :
    (dynamoDBGSIDelete "table:idx" DeleteResp.notFound (Except.ok ())).res =
      Except.error (DeleteError.doesNotExist "table" "idx") ∧
    (dynamoDBGSIDelete "table:idx" DeleteResp.notFound (Except.ok ())).res ≠
      Except.ok () := ⟨rfl, by decide⟩

/-- C1 amended: for every Delete invocation with a well-formed id whose
remote delete call reports not-found, the controller returns the error
naming the table and the index as nonexistent (rather than treating
not-found as success). -/
theorem delete_notFound_returns_error (id tn idxn : String)
    (w : Except String Unit) (h : idToNames id = .ok (tn, idxn)) :
    (dynamoDBGSIDelete id .notFound w).res = .error (.doesNotExist tn idxn) := by
  unfold dynamoDBGSIDelete
  rw [h]

/-- Witness for the amended C1 at a concrete id. -/
theorem delete_notFound_returns_error_witness :
    (dynamoDBGSIDelete "t:i" .notFound (.ok ())).res =
      .error (.doesNotExist "t" "i") :=
  delete_notFound_returns_error "t:i" "t" "i" (.ok ()) rfl

/-- C2, code behaviour at the failing input: billing `PROVISIONED`,
autoscaling disabled, read capacity changed from 5 to 10, write capacity
unchanged — the update issues no `UpdateTable` call at all (its only event
is the final read), because `HasChange` is queried with the misspelled key
`"read_capaciity"`. -/
theorem update_read_change_issues_no_update :
    ((⟨"t:i", ⟨"PROVISIONED", 10, 5, false⟩, 5, 5⟩ : UpdateData).readCapacityOld ≠
        (⟨"t:i", ⟨"PROVISIONED", 10, 5, false⟩, 5, 5⟩ : UpdateData).billing.readCapacity) ∧
    (dynamoDBGSIUpdate ⟨"t:i", ⟨"PROVISIONED", 10, 5, false⟩, 5, 5⟩
        ⟨.ok (), .ok (), .ok ()⟩).events = [.call (.describeTable "t")] ∧
    (dynamoDBGSIUpdate ⟨"t:i", ⟨"PROVISIONED", 10, 5, false⟩, 5, 5⟩
        ⟨.ok (), .ok (), .ok ()⟩).res = .ok () :=
  ⟨by decide, rfl, rfl⟩

/-- C4, code behaviour at the failing input: an Update that does issue a
remote capacity update polls with pending `{UPDATING}` and target
`{CREATING, ACTIVE}` and performs a Read afterwards, as claimed — but the
poll timeout is `createGSITimeout` (30 minutes), not the declared and
unused `updateGSITimeout` (20 minutes). -/
theorem update_polls_with_create_timeout :
    (dynamoDBGSIUpdate ⟨"t:i", ⟨"PROVISIONED", 5, 10, false⟩, 5, 5⟩
        ⟨.ok (), .ok (), .ok ()⟩).events =
      [.call (.updateTableUpdate "t" "i" ⟨none, some 10⟩),
       .wait ⟨[indexStatusUpdating], [indexStatusCreating, indexStatusActive],
              createGSITimeout⟩,
       .call (.describeTable "t")] ∧
    createGSITimeout = 30 * timeMinute ∧
    updateGSITimeout = 20 * timeMinute ∧
    createGSITimeout ≠ updateGSITimeout :=
  ⟨rfl, rfl, rfl, by decide⟩

/-! ## Lemmas about the attribute reconciler -/

theorem reconcileAttribute_eq (ad : List AttributeDefinition) (n t : String) :
    reconcileAttribute ad n t =
      if getAttributeType ad n = "" then some (ad ++ [⟨n, t⟩])
      else if getAttributeType ad n ≠ t then none
      else some ad := rfl

theorem getAttributeType_eq_find (ad : List AttributeDefinition) (n : String) :
    getAttributeType ad n =
      match ad.find? (fun a => a.attributeName == n) with
      | some a => a.attributeType
      | none => "" := by
  induction ad with
  | nil => rfl
  | cons a rest ih =>
    by_cases h : a.attributeName = n
    · simp [getAttributeType, h]
    · simp [getAttributeType, h, ih]

theorem getAttributeType_append_of_absent (ad l2 : List AttributeDefinition)
    (n : String) (h : ∀ a ∈ ad, a.attributeName ≠ n) :
    getAttributeType (ad ++ l2) n = getAttributeType l2 n := by
  induction ad with
  | nil => rfl
  | cons a rest ih =>
    have ha : a.attributeName ≠ n := h a (List.mem_cons_self _ _)
    have hr : ∀ a ∈ rest, a.attributeName ≠ n :=
      fun x hx => h x (List.mem_cons_of_mem _ hx)
    simp [getAttributeType, ha, ih hr]

theorem getAttributeType_empty_absent (ad : List AttributeDefinition)
    (n : String) (hne : ∀ a ∈ ad, a.attributeName = n → a.attributeType ≠ "")
    (h : getAttributeType ad n = "") : ∀ a ∈ ad, a.attributeName ≠ n := by
  induction ad with
  | nil => intro a ha; cases ha
  | cons a rest ih =>
    intro x hx
    rcases List.mem_cons.mp hx with rfl | hx
    · intro he
      rw [getAttributeType, if_pos he] at h
      exact hne x (List.mem_cons_self _ _) he h
    · by_cases he : a.attributeName = n
      · rw [getAttributeType, if_pos he] at h
        exact absurd h (hne a (List.mem_cons_self _ _) he)
      · rw [getAttributeType, if_neg he] at h
        exact ih (fun y hy => hne y (List.mem_cons_of_mem _ hy)) h x hx

/-- C6 counterexample to the claim as stated: the list holds a definition
named `"a"` whose type `""` differs from the requested type `"S"`, yet the
reconciler raises no conflict — it appends a second definition instead
(the source conflates an empty stored type with absence). -/
theorem reconcileAttribute_missed_conflict_empty_type :
    (⟨"a", ""⟩ : AttributeDefinition) ∈ [(⟨"a", ""⟩ : AttributeDefinition)] ∧
    (⟨"a", ""⟩ : AttributeDefinition).attributeName = "a" ∧
    (⟨"a", ""⟩ : AttributeDefinition).attributeType ≠ "S" ∧
    reconcileAttribute [⟨"a", ""⟩] "a" "S" = some [⟨"a", ""⟩, ⟨"a", "S"⟩] :=
  ⟨by decide, rfl, by decide, rfl⟩

/-- C6 amended: over lists whose stored attribute types are nonempty (as all
real DynamoDB scalar types are), the reconciler fails iff the first
definition with the requested name has a different type; when no
definition with the name exists it appends a new one; and every successful
result extends the input list without mutating it (it is the list itself
or the list with one appended entry). -/
theorem reconcileAttribute_spec (ad : List AttributeDefinition) (n t : String)
    (hne : ∀ a ∈ ad, a.attributeType ≠ "") :
    (reconcileAttribute ad n t = none ↔
        ∃ a, ad.find? (fun x => x.attributeName == n) = some a ∧
          a.attributeType ≠ t) ∧
    (ad.find? (fun x => x.attributeName == n) = none →
        reconcileAttribute ad n t = some (ad ++ [⟨n, t⟩])) ∧
    (∀ l, reconcileAttribute ad n t = some l → l = ad ∨ l = ad ++ [⟨n, t⟩]) := by
  cases hf : ad.find? (fun x => x.attributeName == n) with
  | none =>
    have hg : getAttributeType ad n = "" := by
      rw [getAttributeType_eq_find, hf]
    refine ⟨?_, fun _ => ?_, ?_⟩
    · rw [reconcileAttribute_eq, if_pos hg]
      simp [hf]
    · rw [reconcileAttribute_eq, if_pos hg]
    · intro l hl
      rw [reconcileAttribute_eq, if_pos hg] at hl
      exact Or.inr (Option.some.inj hl).symm
  | some a =>
    have hg : getAttributeType ad n = a.attributeType := by
      rw [getAttributeType_eq_find, hf]
    have hmem : a ∈ ad := List.mem_of_find?_eq_some hf
    have hat : a.attributeType ≠ "" := hne a hmem
    have hc1 : ¬(getAttributeType ad n = "") := by
      rw [hg]
      exact hat
    by_cases hte : a.attributeType = t
    · have hc2 : ¬(getAttributeType ad n ≠ t) := by
        rw [hg]
        exact not_not_intro hte
      refine ⟨?_, fun h0 => ?_, ?_⟩
      · rw [reconcileAttribute_eq, if_neg hc1, if_neg hc2]
        simp [hf, hte]
      · exact absurd h0 (by simp)
      · intro l hl
        rw [reconcileAttribute_eq, if_neg hc1, if_neg hc2] at hl
        exact Or.inl (Option.some.inj hl).symm
    · have hc2 : getAttributeType ad n ≠ t := by
        rw [hg]
        exact hte
      refine ⟨?_, fun h0 => ?_, ?_⟩
      · rw [reconcileAttribute_eq, if_neg hc1, if_pos hc2]
        simp [hf, hte]
      · exact absurd h0 (by simp)
      · intro l hl
        rw [reconcileAttribute_eq, if_neg hc1, if_pos hc2] at hl
        exact Option.noConfusion hl

/-- Witness for the amended C6: a stored `"S"` against a requested `"N"` for
the same name is a conflict. -/
theorem reconcileAttribute_spec_witness :
    reconcileAttribute [⟨"x", "S"⟩] "x" "N" = none :=
  ((reconcileAttribute_spec [⟨"x", "S"⟩] "x" "N" (by decide)).1).mpr
    ⟨⟨"x", "S"⟩, by decide, by decide⟩

/-- C8 counterexample to the claim as stated: reconciling the pair
`("a", "")` against the output of its own first reconciliation stages a
further addition (the empty type makes the lookup report absence again). -/
theorem reconcileAttribute_not_idempotent_empty_type :
    reconcileAttribute [] "a" "" = some [⟨"a", ""⟩] ∧
    reconcileAttribute [⟨"a", ""⟩] "a" "" = some [⟨"a", ""⟩, ⟨"a", ""⟩] ∧
    ([(⟨"a", ""⟩ : AttributeDefinition), ⟨"a", ""⟩] ≠
      [(⟨"a", ""⟩ : AttributeDefinition)]) :=
  ⟨rfl, rfl, by decide⟩

/-- C8 amended: for a requested pair with a nonempty type, against a list
whose definitions for that name have nonempty types, reconciling a second
time against the first reconciliation's output stages no further change
and raises no conflict. -/
theorem reconcileAttribute_idempotent (ad : List AttributeDefinition)
    (n t : String) (ht : t ≠ "")
    (hne : ∀ a ∈ ad, a.attributeName = n → a.attributeType ≠ "")
    (l : List AttributeDefinition) (h : reconcileAttribute ad n t = some l) :
    reconcileAttribute l n t = some l := by
  by_cases hg : getAttributeType ad n = ""
  · have habs := getAttributeType_empty_absent ad n hne hg
    rw [reconcileAttribute_eq, if_pos hg] at h
    have hl : l = ad ++ [⟨n, t⟩] := (Option.some.inj h).symm
    subst hl
    have hl2 : getAttributeType (ad ++ [⟨n, t⟩]) n = t := by
      rw [getAttributeType_append_of_absent ad _ n habs]
      simp [getAttributeType]
    have hc1 : ¬(getAttributeType (ad ++ [⟨n, t⟩]) n = "") := by
      rw [hl2]
      exact ht
    have hc2 : ¬(getAttributeType (ad ++ [⟨n, t⟩]) n ≠ t) := by
      rw [hl2]
      exact not_not_intro rfl
    rw [reconcileAttribute_eq, if_neg hc1, if_neg hc2]
  · have hteq : getAttributeType ad n = t := by
      by_contra hne2
      rw [reconcileAttribute_eq, if_neg hg, if_pos hne2] at h
      exact Option.noConfusion h
    have hc2 : ¬(getAttributeType ad n ≠ t) := not_not_intro hteq
    rw [reconcileAttribute_eq, if_neg hg, if_neg hc2] at h
    have hl : l = ad := (Option.some.inj h).symm
    subst hl
    rw [reconcileAttribute_eq, if_neg hg, if_neg hc2]

/-- Witness for the amended C8: the first reconciliation of `("a", "S")`
against the empty list appends, and the theorem makes the second one a
no-op. -/
theorem reconcileAttribute_idempotent_witness :
    reconcileAttribute [⟨"a", "S"⟩] "a" "S" = some [⟨"a", "S"⟩] :=
  reconcileAttribute_idempotent [] "a" "S" (by decide) (by decide)
    [⟨"a", "S"⟩] (by decide)

/-! ## Lemmas about the create path -/

theorem createFinish_validation_some (d : CreateData) (env : CreateEnv)
    (ks : List (String × String)) (ad : List AttributeDefinition)
    (ev : List Event) (msg : String)
    (h : validateBillingMode d.billing = some msg) :
    createFinish d env ks ad ev = ⟨.error (.validationError msg), none, ev⟩ := by
  unfold createFinish
  rw [h]

theorem createFinish_validation_none (d : CreateData) (env : CreateEnv)
    (ks : List (String × String)) (ad : List AttributeDefinition)
    (ev : List Event) (h : validateBillingMode d.billing = none) :
    isValidationFailure (createFinish d env ks ad ev).res = false := by
  obtain ⟨inew, aim, pr, de, ur, wr, rr⟩ := env
  unfold createFinish
  rw [h]
  cases ur <;> cases wr <;> cases rr <;> simp [isValidationFailure]

theorem createAfterProbe_validation_events (d : CreateData) (env : CreateEnv)
    (ev0 : List Event) :
    isValidationFailure (createAfterProbe d env ev0).res = true →
    (createAfterProbe d env ev0).events =
      ev0 ++ [.call (.describeTable d.tableName)] := by
  unfold createAfterProbe
  split
  · intro h
    simp [isValidationFailure] at h
  · split
    · intro h
      simp [isValidationFailure] at h
    · split
      · intro h
        cases hv : validateBillingMode d.billing with
        | some msg => rw [createFinish_validation_some _ _ _ _ _ _ hv]
        | none =>
          rw [createFinish_validation_none _ _ _ _ _ hv] at h
          simp at h
      · split
        · intro _
          rfl
        · split
          · intro h
            simp [isValidationFailure] at h
          · intro h
            cases hv : validateBillingMode d.billing with
            | some msg => rw [createFinish_validation_some _ _ _ _ _ _ hv]
            | none =>
              rw [createFinish_validation_none _ _ _ _ _ hv] at h
              simp at h

/-- C5 counterexample to the claim as stated: a Create whose spec violates
the `PAY_PER_REQUEST` capacity rule does surface the validation error, but
a `DescribeTable` (the attribute-definition fetch) has already been issued
before the validation runs. -/
theorem create_validation_error_preceded_by_describe :
    (dynamoDBGSICreate
        ⟨"t", "idx", "h", "S", none, none, "ALL", [],
          ⟨"PAY_PER_REQUEST", 5, 0, false⟩⟩
        ⟨true, false, .ok false, .ok [], .ok (), .ok (), .ok ()⟩).res =
      .error (.validationError
        "read_capacity / write_capacity must not be set for billing_mode = PAY_PER_REQUEST") ∧
    Event.call (.describeTable "t") ∈
      (dynamoDBGSICreate
        ⟨"t", "idx", "h", "S", none, none, "ALL", [],
          ⟨"PAY_PER_REQUEST", 5, 0, false⟩⟩
        ⟨true, false, .ok false, .ok [], .ok (), .ok (), .ok ()⟩).events :=
  ⟨rfl, by decide⟩

/-- C5 amended: whenever a Create invocation returns a validation failure (a
billing/capacity rule violation or a missing range-key type), every remote
call issued before the failure is a `DescribeTable` — in particular no
`UpdateTable` (create) call precedes the validation failure, though a
describe does. -/
theorem create_validation_failure_only_describe (d : CreateData)
    (env : CreateEnv)
    (h : isValidationFailure (dynamoDBGSICreate d env).res = true) :
    (dynamoDBGSICreate d env).events.all Event.isDescribe = true := by
  revert h
  unfold dynamoDBGSICreate
  by_cases hb : env.isNewResource && env.autoImport
  · rw [if_pos hb]
    cases hpr : env.probe with
    | error e =>
      intro h
      simp [isValidationFailure] at h
    | ok b =>
      cases b with
      | true =>
        intro h
        simp [isValidationFailure] at h
      | false =>
        intro h
        rw [createAfterProbe_validation_events d env _ h]
        simp [Event.isDescribe]
  · rw [if_neg hb]
    intro h
    rw [createAfterProbe_validation_events d env _ h]
    simp [Event.isDescribe]

/-- Witness for the amended C5 at a concrete invalid spec. -/
theorem create_validation_failure_only_describe_witness :
    (dynamoDBGSICreate
        ⟨"t", "idx", "h", "S", none, none, "ALL", [],
          ⟨"PAY_PER_REQUEST", 5, 0, false⟩⟩
        ⟨true, false, .ok false, .ok [], .ok (), .ok (), .ok ()⟩).events.all
      Event.isDescribe = true :=
  create_validation_failure_only_describe _ _ (by decide)

/-- C7: on a new resource with auto-import enabled, when the probe finds the
index already present remotely, Create returns success with identity
`table_name ++ ":" ++ index_name` and its trace contains no create
(`UpdateTable`) call. -/
theorem create_autoImport_adopts_without_create (d : CreateData)
    (env : CreateEnv) (h1 : env.isNewResource = true)
    (h2 : env.autoImport = true) (h3 : env.probe = .ok true) :
    (dynamoDBGSICreate d env).res = .ok () ∧
    (dynamoDBGSICreate d env).assignedId = some (d.tableName ++ ":" ++ d.name) ∧
    (dynamoDBGSICreate d env).events.all (fun e => !e.isCreateCall) = true := by
  unfold dynamoDBGSICreate
  rw [h1, h2, h3]
  simp [Event.isCreateCall]

/-- Witness for C7 at a concrete spec with the index already present. -/
theorem create_autoImport_adopts_without_create_witness :
    (dynamoDBGSICreate
        ⟨"table", "idx", "h", "S", none, none, "ALL", [],
          ⟨"PROVISIONED", 5, 5, false⟩⟩
        ⟨true, true, .ok true, .ok [], .ok (), .ok (), .ok ()⟩).res = .ok () ∧
    (dynamoDBGSICreate
        ⟨"table", "idx", "h", "S", none, none, "ALL", [],
          ⟨"PROVISIONED", 5, 5, false⟩⟩
        ⟨true, true, .ok true, .ok [], .ok (), .ok (), .ok ()⟩).assignedId =
      some ("table" ++ ":" ++ "idx") ∧
    (dynamoDBGSICreate
        ⟨"table", "idx", "h", "S", none, none, "ALL", [],
          ⟨"PROVISIONED", 5, 5, false⟩⟩
        ⟨true, true, .ok true, .ok [], .ok (), .ok (), .ok ()⟩).events.all
      (fun e => !e.isCreateCall) = true :=
  create_autoImport_adopts_without_create _ _ rfl rfl rfl

end GSI
